import Mathlib

/-!
# AtomChat frontend — verification of the client-side state synchronisation core

Shallow embedding of the task-management client's domain entities, task state
container, and HTTP interceptor chain (auth, error-normalisation, loading),
translated from the TypeScript sources:

* `src/app/domain/entities` (`Task`, `CreateTaskRequest`, `UpdateTaskRequest`)
* `TaskApplicationService` (task state container)
* `AuthApplicationService.logout` and `authInterceptor`
* `errorInterceptor` / `handleError` / `getErrorSummary`
* `loadingInterceptor` and `LoadingService`
* `TaskRepositoryImpl.toggleCompletion`

JS strings are modelled by Lean `String`; `s.trim()` trims whitespace
characters from both ends of the character list; `s.includes(t)` is
substring containment; `s.length` is the character count.  JS `Date`
values are modelled by `Nat` timestamps.  Thrown validation errors are
modelled by `Except String`.
-/

namespace AtomChat

/-- Characters removed by `String.prototype.trim`, restricted to the
whitespace characters that occur in this development. -/
def trimChars (l : List Char) : List Char :=
  ((l.dropWhile Char.isWhitespace).reverse.dropWhile Char.isWhitespace).reverse

/-- The guard `!s || s.trim() === ''` used by every validator: the string is
empty or trims to the empty string. -/
def jsBlank (s : String) : Bool :=
  s.data == [] || trimChars s.data == []

/-- `startsWith` on character lists, auxiliary to `strIncludes`. -/
def listStartsWith : List Char → List Char → Bool
  | _, [] => true
  | [], _ :: _ => false
  | a :: as, b :: bs => a == b && listStartsWith as bs

/-- Auxiliary recursion for `strIncludes`. -/
def includesAux (needle : List Char) : List Char → Bool
  | [] => listStartsWith [] needle
  | c :: t => listStartsWith (c :: t) needle || includesAux needle t

/-- `s.includes(sub)` — substring containment, as used by the interceptors. -/
def strIncludes (s sub : String) : Bool :=
  includesAux sub.data s.data

/-- The guard `if (this.description && this.description.length > 500)`:
a defined, truthy (non-empty) description longer than 500 characters. -/
def descTooLong (d : Option String) : Bool :=
  match d with
  | none => false
  | some s => !(s.data == []) && decide (s.length > 500)

/-! ## Domain entities (`task.entity.ts`, `create-task-request.entity.ts`,
`update-task-request.entity.ts`) -/

/-- The `Task` domain entity's fields. -/
structure Task where
  id : String
  title : String
  description : Option String
  completed : Bool
  userId : String
  createdAt : Nat
  updatedAt : Nat
deriving DecidableEq, Repr

/-- `Task.validate`: the checks run by the `Task` constructor, in source
order; `some msg` is the message of the `Error` thrown, `none` means the
construction succeeds. -/
def Task.validate (t : Task) : Option String :=
  if jsBlank t.id then some "Task ID is required"
  else if jsBlank t.title then some "Task title is required"
  else if t.title.length > 100 then some "Task title must not exceed 100 characters"
  else if descTooLong t.description then some "Task description must not exceed 500 characters"
  else if jsBlank t.userId then some "User ID is required"
  else none

/-- `new Task(...)`: assign the fields, then run `validate`, which throws on
the first violated rule. -/
def mkTask (id title : String) (description : Option String) (completed : Bool)
    (userId : String) (createdAt updatedAt : Nat) : Except String Task :=
  let t : Task := ⟨id, title, description, completed, userId, createdAt, updatedAt⟩
  match t.validate with
  | some msg => .error msg
  | none => .ok t

/-- `Task.prototype.toggleCompletion`: construct a new `Task` with the same
fields except `completed` negated and `updatedAt := new Date()` (modelled by
the `now` argument); the constructor re-runs validation. -/
def Task.toggleCompletion (t : Task) (now : Nat) : Except String Task :=
  mkTask t.id t.title t.description (!t.completed) t.userId t.createdAt now

/-- The `CreateTaskRequest` DTO's fields. -/
structure CreateTaskRequest where
  title : String
  description : Option String
  userId : String
deriving DecidableEq, Repr

/-- `CreateTaskRequest.validate`, in source order (no `id` check). -/
def CreateTaskRequest.validate (r : CreateTaskRequest) : Option String :=
  if jsBlank r.title then some "Task title is required"
  else if r.title.length > 100 then some "Task title must not exceed 100 characters"
  else if descTooLong r.description then some "Task description must not exceed 500 characters"
  else if jsBlank r.userId then some "User ID is required"
  else none

/-- `new CreateTaskRequest(...)`. -/
def mkCreateTaskRequest (title : String) (description : Option String)
    (userId : String) : Except String CreateTaskRequest :=
  let r : CreateTaskRequest := ⟨title, description, userId⟩
  match r.validate with
  | some msg => .error msg
  | none => .ok r

/-- The `UpdateTaskRequest` DTO's fields. -/
structure UpdateTaskRequest where
  id : String
  title : String
  description : Option String
  completed : Bool
  userId : String
deriving DecidableEq, Repr

/-- `UpdateTaskRequest.validate`, in source order. -/
def UpdateTaskRequest.validate (r : UpdateTaskRequest) : Option String :=
  if jsBlank r.id then some "Task ID is required"
  else if jsBlank r.title then some "Task title is required"
  else if r.title.length > 100 then some "Task title must not exceed 100 characters"
  else if descTooLong r.description then some "Task description must not exceed 500 characters"
  else if jsBlank r.userId then some "User ID is required"
  else none

/-- `new UpdateTaskRequest(...)`. -/
def mkUpdateTaskRequest (id title : String) (description : Option String)
    (completed : Bool) (userId : String) : Except String UpdateTaskRequest :=
  let r : UpdateTaskRequest := ⟨id, title, description, completed, userId⟩
  match r.validate with
  | some msg => .error msg
  | none => .ok r

/-! ## Task state container (`TaskApplicationService`) -/

/-- The `TaskState` snapshot held by the `BehaviorSubject`. -/
structure TaskState where
  tasks : List Task
  isLoading : Bool
  error : Option String
deriving DecidableEq, Repr

/-- `updateState({ isLoading: loading })` via `setLoading`. -/
def TaskState.setLoading (s : TaskState) (loading : Bool) : TaskState :=
  { s with isLoading := loading }

/-- `updateState({ error: null })` via `clearError`. -/
def TaskState.clearError (s : TaskState) : TaskState :=
  { s with error := none }

/-- `updateState({ error, isLoading: false })` via `setError`. -/
def TaskState.setError (s : TaskState) (e : String) : TaskState :=
  { s with error := some e, isLoading := false }

/-- `createTask(request)` on the repository-success path: `setLoading(true)`
and `clearError()` happen at call time; when the repository resolves with
`task`, the handler appends it (`[...currentState.tasks, task]`) and clears
loading. -/
def createTaskSuccess (s : TaskState) (task : Task) : TaskState :=
  let s := (s.setLoading true).clearError
  { s with tasks := s.tasks ++ [task], isLoading := false }

/-- `updateTask(request)` on the repository-success path: after the loading
phase, `findIndex` scans for `request.id`; only when a match exists is the
entry at that index replaced and loading cleared — the `none` branch performs
no state update. -/
def updateTaskSuccess (s : TaskState) (requestId : String) (task : Task) : TaskState :=
  let s := (s.setLoading true).clearError
  match s.tasks.findIdx? (fun t => t.id == requestId) with
  | some i => { s with tasks := s.tasks.set i task, isLoading := false }
  | none => s

/-- `toggleTaskCompletion(taskId)` on the repository-success path — the same
merge logic as `updateTask`, scanning for `taskId`. -/
def toggleTaskCompletionSuccess (s : TaskState) (taskId : String) (task : Task) : TaskState :=
  let s := (s.setLoading true).clearError
  match s.tasks.findIdx? (fun t => t.id == taskId) with
  | some i => { s with tasks := s.tasks.set i task, isLoading := false }
  | none => s

/-! ## Loading interceptor (`loading.interceptor.ts`, `loading.service.ts`) -/

/-- The module-level `skipLoadingEndpoints` list. -/
def skipLoadingEndpoints : List String :=
  ["/auth/refresh", "/health", "/ping"]

/-- `shouldSkipLoading(req)`: some skip endpoint occurs in the request URL. -/
def shouldSkipLoading (url : String) : Bool :=
  skipLoadingEndpoints.any (fun endpoint => strIncludes url endpoint)

/-- The module-level `activeRequests` counter together with the
`LoadingService` flag (`loadingSubject.value`). -/
structure LoadingState where
  activeRequests : Int
  loading : Bool
deriving DecidableEq, Repr

/-- Events observed by `loadingInterceptor`: a request is dispatched, or a
request completes (success or failure — `finalize` fires on both). -/
inductive HttpEvent where
  | start (url : String)
  | complete (url : String)
deriving DecidableEq, Repr

/-- One step of `loadingInterceptor`: a skipped URL touches nothing; a
dispatch increments the counter and calls `setLoading(true)`; a completion
decrements unconditionally and calls `setLoading(false)` exactly when the
counter has reached zero.  (Completions occur only for requests whose
dispatch passed the same URL-based skip test.) -/
def loadingStep (s : LoadingState) (e : HttpEvent) : LoadingState :=
  match e with
  | .start url =>
      if shouldSkipLoading url then s
      else { activeRequests := s.activeRequests + 1, loading := true }
  | .complete url =>
      if shouldSkipLoading url then s
      else
        let n := s.activeRequests - 1
        { activeRequests := n, loading := if n == 0 then false else s.loading }

/-- Initial state: `activeRequests = 0`, `BehaviorSubject<boolean>(false)`. -/
def loadingInit : LoadingState := { activeRequests := 0, loading := false }

/-- Run the interceptor over a sequence of request-lifecycle events. -/
def runLoading (events : List HttpEvent) : LoadingState :=
  events.foldl loadingStep loadingInit

/-- Well-formed event sequences relative to a current in-flight count: a
non-skipped completion only occurs while some non-skipped request is in
flight.  This holds of every real trace, since `finalize` fires once per
dispatched request. -/
def balancedFrom : Int → List HttpEvent → Bool
  | _, [] => true
  | c, .start url :: es =>
      if shouldSkipLoading url then balancedFrom c es else balancedFrom (c + 1) es
  | c, .complete url :: es =>
      if shouldSkipLoading url then balancedFrom c es
      else decide (0 < c) && balancedFrom (c - 1) es

/-! ## Auth state and auth interceptor (`AuthApplicationService.logout`,
`auth.interceptor.ts`) -/

/-- The `User` domain entity's fields (timestamps kept as strings, as in
`user.entity.ts`). -/
structure User where
  id : String
  email : String
  createdAt : String
  updatedAt : String
deriving DecidableEq, Repr

/-- The `AuthState` entity. -/
structure AuthState where
  user : Option User
  isAuthenticated : Bool
  isLoading : Bool
  error : Option String
deriving DecidableEq, Repr

/-- `AuthApplicationService.initialState = new AuthState(null, false, false, null)`. -/
def initialAuthState : AuthState := ⟨none, false, false, none⟩

/-- The client-visible state touched by `logout`: the two `localStorage`
keys, the `authStateSubject` value, and the router target. -/
structure AuthClientState where
  storedToken : Option String
  storedUser : Option User
  authState : AuthState
  route : Option String
deriving DecidableEq, Repr

/-- `AuthApplicationService.logout()`: remove both persisted keys, reset the
subject to the initial state, navigate to `/login`. -/
def logout (s : AuthClientState) : AuthClientState :=
  { s with storedToken := none, storedUser := none,
           authState := initialAuthState, route := some "/login" }

/-- `isAuthEndpoint(url)` in `auth.interceptor.ts`. -/
def isAuthEndpoint (url : String) : Bool :=
  strIncludes url "/auth/login" || strIncludes url "/auth/register"

/-- An outgoing request as the auth interceptor sees it. -/
structure HttpRequest where
  url : String
  authHeader : Option String
deriving DecidableEq, Repr

/-- `addAuthHeader`: clone the request with `Authorization: Bearer <token>`
when a token is stored. -/
def addAuthHeader (req : HttpRequest) (token : Option String) : HttpRequest :=
  match token with
  | some t => { req with authHeader := some ("Bearer " ++ t) }
  | none => req

/-- The body of an `HttpErrorResponse.error`: a client-side `ErrorEvent`
with a message, or a server response body carrying an optional `message`
field (`none` also covers a missing body). -/
inductive ErrorBody where
  | clientEvent (message : String)
  | server (message : Option String)
deriving DecidableEq, Repr

/-- An `HttpErrorResponse`: status code plus `error` body. -/
structure HttpErrorResponse where
  status : Nat
  body : ErrorBody
deriving DecidableEq, Repr

/-- The response side of `authInterceptor`: on a 401 error from a non-auth
endpoint, call `logout()` and re-throw the same error; auth endpoints pass
through untouched; every other outcome leaves the client state alone. -/
def authInterceptorResult {α : Type} (req : HttpRequest) (s : AuthClientState)
    (result : Except HttpErrorResponse α) :
    Except HttpErrorResponse α × AuthClientState :=
  if isAuthEndpoint req.url then (result, s)
  else
    match result with
    | .error e => if e.status == 401 then (.error e, logout s) else (.error e, s)
    | .ok v => (.ok v, s)

/-! ## Error-normalisation interceptor (`error.interceptor.ts`) -/

/-- Toast severities used by `handleError`. -/
inductive Severity where
  | error
  | warn
  | info
  | success
deriving DecidableEq, Repr

/-- JS `a || b` on an optional string: the fallback is used when the left
side is missing or empty (falsy). -/
def jsOrElse (m : Option String) (fallback : String) : String :=
  match m with
  | some s => if s.data == [] then fallback else s
  | none => fallback

/-- `handleError`'s message/severity computation: the `ErrorEvent` branch
for client-side errors, otherwise the `switch` on the status code; the
initial values `'An unexpected error occurred'` / `'error'` survive where no
branch overwrites them. -/
def handleError (status : Nat) (body : ErrorBody) : Severity × String :=
  match body with
  | .clientEvent msg => (Severity.error, "Client Error: " ++ msg)
  | .server serverMsg =>
      if status == 400 then (Severity.warn, jsOrElse serverMsg "Bad Request")
      else if status == 401 then (Severity.error, "Unauthorized. Please log in again.")
      else if status == 403 then
        (Severity.error, "Forbidden. You do not have permission to perform this action.")
      else if status == 404 then (Severity.warn, "Resource not found")
      else if status == 409 then
        (Severity.warn, jsOrElse serverMsg "Conflict. The resource already exists.")
      else if status == 422 then (Severity.warn, jsOrElse serverMsg "Validation Error")
      else if status == 429 then (Severity.error, "Too many requests. Please try again later.")
      else if status == 500 then (Severity.error, "Internal server error. Please try again later.")
      else if status == 502 || status == 503 || status == 504 then
        (Severity.error, "Service temporarily unavailable. Please try again later.")
      else (Severity.error, jsOrElse serverMsg ("Server Error: " ++ toString status))

/-- `getErrorSummary`. -/
def getErrorSummary (severity : Severity) : String :=
  match severity with
  | .warn => "Warning"
  | .info => "Information"
  | .success => "Success"
  | _ => "Error"

/-- One toast passed to `messageService.add`. -/
structure ToastMessage where
  severity : Severity
  summary : String
  detail : String
  life : Nat
deriving DecidableEq, Repr

/-- `errorInterceptor`'s `catchError` handler: build the single toast from
`handleError`, then `throwError(() => error)` — the original error object. -/
def errorInterceptorOnError (e : HttpErrorResponse) :
    List ToastMessage × HttpErrorResponse :=
  let sevMsg := handleError e.status e.body
  ([⟨sevMsg.1, getErrorSummary sevMsg.1, sevMsg.2, 5000⟩], e)

/-! ## Task repository (`task.repository.impl.ts`) -/

/-- HTTP methods used by `TaskRepositoryImpl`. -/
inductive Method where
  | get
  | post
  | put
  | patch
  | delete
deriving DecidableEq, Repr

/-- The body sent by `update`: `{ title, description, completed }`. -/
structure TaskPatchBody where
  title : String
  description : Option String
  completed : Bool
deriving DecidableEq, Repr

/-- A request issued over `HttpClient`, as far as the task repository is
concerned. -/
structure ApiRequest where
  method : Method
  url : String
  body : Option TaskPatchBody
deriving DecidableEq, Repr

/-- `TaskRepositoryImpl.toggleCompletion(id)`: the sequence of HTTP requests
issued when the initial fetch resolves with `fetched`.  The code first runs
`findById(id)` — a GET of `/tasks/id` — then builds
`new UpdateTaskRequest(task.id, task.title, task.description,
!task.completed, task.userId)` (whose constructor validates) and hands it to
`update`, which PATCHes `/tasks/request.id` with
`{ title, description, completed }`. -/
def toggleCompletionRequests (apiUrl id : String) (fetched : Task) :
    Except String (List ApiRequest) :=
  match mkUpdateTaskRequest fetched.id fetched.title fetched.description
      (!fetched.completed) fetched.userId with
  | .error msg => .error msg
  | .ok r =>
      .ok [⟨Method.get, apiUrl ++ "/tasks/" ++ id, none⟩,
           ⟨Method.patch, apiUrl ++ "/tasks/" ++ r.id,
            some ⟨r.title, r.description, r.completed⟩⟩]

/-! ## Helper lemmas -/

/-- A list of whitespace characters trims to the empty list. -/
lemma trimChars_eq_nil_of_all_whitespace {l : List Char}
    (h : ∀ c ∈ l, c.isWhitespace) : trimChars l = [] := by
  unfold trimChars
  have h1 : l.dropWhile Char.isWhitespace = [] :=
    List.dropWhile_eq_nil_iff.mpr h
  simp [h1]

/-- A whitespace-only string is blank in the validators' sense. -/
lemma jsBlank_of_all_whitespace {s : String}
    (h : ∀ c ∈ s.data, c.isWhitespace) : jsBlank s = true := by
  unfold jsBlank
  have := trimChars_eq_nil_of_all_whitespace h
  simp [this]

/-- `Task.validate` succeeds exactly when all five guards pass. -/
lemma task_validate_none_iff (t : Task) :
    t.validate = none ↔
      (jsBlank t.id = false ∧ jsBlank t.title = false ∧ t.title.length ≤ 100
        ∧ descTooLong t.description = false ∧ jsBlank t.userId = false) := by
  unfold Task.validate
  by_cases h1 : jsBlank t.id = true <;>
  by_cases h2 : jsBlank t.title = true <;>
  by_cases h3 : t.title.length > 100 <;>
  by_cases h4 : descTooLong t.description = true <;>
  by_cases h5 : jsBlank t.userId = true <;>
  simp [h1, h2, h3, h4, h5] <;> omega

/-- `CreateTaskRequest.validate` succeeds exactly when its four guards pass. -/
lemma createReq_validate_none_iff (r : CreateTaskRequest) :
    r.validate = none ↔
      (jsBlank r.title = false ∧ r.title.length ≤ 100
        ∧ descTooLong r.description = false ∧ jsBlank r.userId = false) := by
  unfold CreateTaskRequest.validate
  by_cases h2 : jsBlank r.title = true <;>
  by_cases h3 : r.title.length > 100 <;>
  by_cases h4 : descTooLong r.description = true <;>
  by_cases h5 : jsBlank r.userId = true <;>
  simp [h2, h3, h4, h5] <;> omega

/-- `UpdateTaskRequest.validate` succeeds exactly when all five guards pass. -/
lemma updateReq_validate_none_iff (r : UpdateTaskRequest) :
    r.validate = none ↔
      (jsBlank r.id = false ∧ jsBlank r.title = false ∧ r.title.length ≤ 100
        ∧ descTooLong r.description = false ∧ jsBlank r.userId = false) := by
  unfold UpdateTaskRequest.validate
  by_cases h1 : jsBlank r.id = true <;>
  by_cases h2 : jsBlank r.title = true <;>
  by_cases h3 : r.title.length > 100 <;>
  by_cases h4 : descTooLong r.description = true <;>
  by_cases h5 : jsBlank r.userId = true <;>
  simp [h1, h2, h3, h4, h5] <;> omega

/-- A sample valid task used by closed witnesses. -/
def sampleTask : Task := ⟨"t1", "Buy milk", none, false, "u1", 0, 0⟩

/-! ## Claim theorems -/

/-- C6 (counterexample): the title `" "` is non-empty, within the length
bound, and `"u1"` is a non-empty user id, yet `new CreateTaskRequest(...)`
throws `'Task title is required'` — construction does not succeed for every
non-empty title within bounds, because the validators trim first. -/
theorem C6_counterexample :
    (" " ≠ "" ∧ (" " : String).length ≤ 100 ∧ "u1" ≠ "")
    ∧ mkCreateTaskRequest " " none "u1" = .error "Task title is required" :=
  ⟨by decide, by rfl⟩

/-- C6 (amended): construction of a `Task`, `CreateTaskRequest`, or
`UpdateTaskRequest` succeeds exactly when the required fields (`id` where
present, `title`, `userId`) are non-blank — non-empty after trimming
whitespace — the title length is at most 100 and the description length at
most 500; in every other case the constructor throws an `Error` before a
value is produced. -/
theorem C6_validation_characterisation (id title : String) (desc : Option String)
    (completed : Bool) (userId : String) (c u : Nat) :
    ((∃ t, mkTask id title desc completed userId c u = .ok t) ↔
      (jsBlank id = false ∧ jsBlank title = false ∧ title.length ≤ 100
        ∧ descTooLong desc = false ∧ jsBlank userId = false))
    ∧ ((∃ r, mkCreateTaskRequest title desc userId = .ok r) ↔
      (jsBlank title = false ∧ title.length ≤ 100
        ∧ descTooLong desc = false ∧ jsBlank userId = false))
    ∧ ((∃ r, mkUpdateTaskRequest id title desc completed userId = .ok r) ↔
      (jsBlank id = false ∧ jsBlank title = false ∧ title.length ≤ 100
        ∧ descTooLong desc = false ∧ jsBlank userId = false))
    ∧ ((¬ (jsBlank id = false ∧ jsBlank title = false ∧ title.length ≤ 100
        ∧ descTooLong desc = false ∧ jsBlank userId = false)) →
      (∃ msg, mkTask id title desc completed userId c u = .error msg)
      ∧ (∃ msg, mkUpdateTaskRequest id title desc completed userId = .error msg)) := by
  have hT : (∃ t, mkTask id title desc completed userId c u = .ok t) ↔
      (Task.validate ⟨id, title, desc, completed, userId, c, u⟩ = none) := by
    unfold mkTask
    cases h : Task.validate ⟨id, title, desc, completed, userId, c, u⟩ <;> simp [h]
  have hC : (∃ r, mkCreateTaskRequest title desc userId = .ok r) ↔
      (CreateTaskRequest.validate ⟨title, desc, userId⟩ = none) := by
    unfold mkCreateTaskRequest
    cases h : CreateTaskRequest.validate ⟨title, desc, userId⟩ <;> simp [h]
  have hU : (∃ r, mkUpdateTaskRequest id title desc completed userId = .ok r) ↔
      (UpdateTaskRequest.validate ⟨id, title, desc, completed, userId⟩ = none) := by
    unfold mkUpdateTaskRequest
    cases h : UpdateTaskRequest.validate ⟨id, title, desc, completed, userId⟩ <;> simp [h]
  refine ⟨hT.trans (task_validate_none_iff _),
          hC.trans (createReq_validate_none_iff _),
          hU.trans (updateReq_validate_none_iff _), ?_⟩
  intro hbad
  constructor
  · cases h : mkTask id title desc completed userId c u with
    | error msg => exact ⟨msg, rfl⟩
    | ok t =>
        exact absurd ((hT.trans (task_validate_none_iff _)).mp ⟨t, h⟩) hbad
  · cases h : mkUpdateTaskRequest id title desc completed userId with
    | error msg => exact ⟨msg, rfl⟩
    | ok r =>
        exact absurd ((hU.trans (updateReq_validate_none_iff _)).mp ⟨r, h⟩) hbad

/-- C6 (witness): at concrete valid inputs the three constructors succeed,
and the dichotomy applies at a concrete invalid input. -/
theorem C6_validation_witness :
    (∃ t, mkTask "t1" "Buy milk" none false "u1" 0 0 = .ok t)
    ∧ (∃ msg, mkTask "" "Buy milk" none false "u1" 0 0 = .error msg) :=
  ⟨(C6_validation_characterisation "t1" "Buy milk" none false "u1" 0 0).1.mpr
      (by decide),
   ((C6_validation_characterisation "" "Buy milk" none false "u1" 0 0).2.2.2
      (by decide)).1⟩

/-- C10: a whitespace-only title is rejected with `'Task title is required'`
by all three validators even when its length is within 1–100, because the
validators trim before the emptiness check; whitespace-only `id` and
`userId` values are likewise rejected; a non-whitespace title of exactly
100 characters is accepted. -/
theorem C10_trim_validation (title id userId : String) (desc : Option String)
    (completed : Bool) (c u : Nat)
    (hws : ∀ ch ∈ title.data, ch.isWhitespace)
    (hlen : 1 ≤ title.length ∧ title.length ≤ 100)
    (hid : jsBlank id = false) (huid : jsBlank userId = false) :
    mkTask id title desc completed userId c u = .error "Task title is required"
    ∧ mkCreateTaskRequest title desc userId = .error "Task title is required"
    ∧ mkUpdateTaskRequest id title desc completed userId
        = .error "Task title is required"
    ∧ (∀ wsid : String, (∀ ch ∈ wsid.data, ch.isWhitespace) →
        mkTask wsid title desc completed userId c u = .error "Task ID is required")
    ∧ (∀ wsuid : String, (∀ ch ∈ wsuid.data, ch.isWhitespace) →
        ∀ t2 : String, jsBlank t2 = false → t2.length ≤ 100 →
          ∀ d2, descTooLong d2 = false →
            mkCreateTaskRequest t2 d2 wsuid = .error "User ID is required")
    ∧ (∀ t100 : String, jsBlank t100 = false → t100.length = 100 →
        ∀ d2, descTooLong d2 = false →
          ∃ r, mkCreateTaskRequest t100 d2 userId = .ok r) := by
  have hbt : jsBlank title = true := jsBlank_of_all_whitespace hws
  refine ⟨?_, ?_, ?_, ?_, ?_, ?_⟩
  · simp [mkTask, Task.validate, hid, hbt]
  · simp [mkCreateTaskRequest, CreateTaskRequest.validate, hbt]
  · simp [mkUpdateTaskRequest, UpdateTaskRequest.validate, hid, hbt]
  · intro wsid hwsid
    have : jsBlank wsid = true := jsBlank_of_all_whitespace hwsid
    simp [mkTask, Task.validate, this]
  · intro wsuid hwsuid t2 ht2 hl2 d2 hd2
    have : jsBlank wsuid = true := jsBlank_of_all_whitespace hwsuid
    simp [mkCreateTaskRequest, CreateTaskRequest.validate, ht2, hl2, hd2, this,
      Nat.not_lt.mpr hl2]
  · intro t100 ht hl d2 hd2
    refine ⟨⟨t100, d2, userId⟩, ?_⟩
    simp [mkCreateTaskRequest, CreateTaskRequest.validate, ht, hd2, huid, hl]

/-- C10 (witness): concrete instances — the single-space title is rejected,
a 100-character title is accepted. -/
theorem C10_trim_validation_witness :
    mkCreateTaskRequest " " none "u1" = .error "Task title is required"
    ∧ ∃ r, mkCreateTaskRequest (String.mk (List.replicate 100 'a')) none "u1" = .ok r :=
  ⟨(C10_trim_validation " " "t1" "u1" none false 0 0 (by decide) (by decide)
      (by decide) (by decide)).2.1,
   (C10_trim_validation " " "t1" "u1" none false 0 0 (by decide) (by decide)
      (by decide) (by decide)).2.2.2.2.2
      (String.mk (List.replicate 100 'a')) (by decide) (by decide) none (by decide)⟩

/-- C9: `Task.toggleCompletion` on a valid task yields a new task with
`completed` negated, `id`, `title`, `description`, `userId`, `createdAt`
unchanged and `updatedAt` refreshed; applying it twice restores the original
`completed` value. -/
theorem C9_toggle_involution (t : Task) (hv : t.validate = none) (now now2 : Nat) :
    ∃ t1, t.toggleCompletion now = .ok t1
      ∧ t1.completed = !t.completed
      ∧ t1.id = t.id ∧ t1.title = t.title ∧ t1.description = t.description
      ∧ t1.userId = t.userId ∧ t1.createdAt = t.createdAt ∧ t1.updatedAt = now
      ∧ ∃ t2, t1.toggleCompletion now2 = .ok t2
        ∧ t2.completed = t.completed ∧ t2.updatedAt = now2 := by
  obtain ⟨h1, h2, h3, h4, h5⟩ := (task_validate_none_iff t).mp hv
  have hval : ∀ (b : Bool) (ca ua : Nat),
      Task.validate ⟨t.id, t.title, t.description, b, t.userId, ca, ua⟩ = none := by
    intro b ca ua
    exact (task_validate_none_iff _).mpr ⟨h1, h2, h3, h4, h5⟩
  refine ⟨⟨t.id, t.title, t.description, !t.completed, t.userId, t.createdAt, now⟩,
    ?_, rfl, rfl, rfl, rfl, rfl, rfl, rfl,
    ⟨t.id, t.title, t.description, !(!t.completed), t.userId, t.createdAt, now2⟩,
    ?_, by simp, rfl⟩
  · unfold Task.toggleCompletion mkTask
    simp [hval]
  · unfold Task.toggleCompletion mkTask
    simp [hval]

/-- C9 (witness): toggling the sample task at time 5, then again at time 9. -/
theorem C9_toggle_involution_witness :
    ∃ t1, sampleTask.toggleCompletion 5 = .ok t1
      ∧ t1.completed = !sampleTask.completed
      ∧ t1.id = sampleTask.id ∧ t1.title = sampleTask.title
      ∧ t1.description = sampleTask.description
      ∧ t1.userId = sampleTask.userId ∧ t1.createdAt = sampleTask.createdAt
      ∧ t1.updatedAt = 5
      ∧ ∃ t2, t1.toggleCompletion 9 = .ok t2
        ∧ t2.completed = sampleTask.completed ∧ t2.updatedAt = 9 :=
  C9_toggle_involution sampleTask (by rfl) 5 9

/-- C7: when `createTask` succeeds with a repository-returned task whose id
does not occur in the current list, the resulting list is the old list with
the task appended at the end — present exactly once, the existing entries
unchanged and in order — and `isLoading` is false. -/
theorem C7_create_appends (s : TaskState) (t : Task)
    (hnew : ∀ x ∈ s.tasks, (x.id == t.id) = false) :
    (createTaskSuccess s t).tasks = s.tasks ++ [t]
    ∧ (createTaskSuccess s t).isLoading = false
    ∧ (createTaskSuccess s t).tasks.filter (fun x => x.id == t.id) = [t] := by
  refine ⟨rfl, rfl, ?_⟩
  have hnil : s.tasks.filter (fun x => x.id == t.id) = [] :=
    List.filter_eq_nil_iff.mpr (by simpa using hnew)
  show (s.tasks ++ [t]).filter (fun x => x.id == t.id) = [t]
  rw [List.filter_append, hnil]
  simp

/-- C7 (witness): appending a fresh task to a one-element list. -/
theorem C7_create_appends_witness :
    (createTaskSuccess ⟨[sampleTask], false, none⟩
        ⟨"t2", "Walk dog", none, false, "u1", 1, 1⟩).tasks
      = [sampleTask] ++ [⟨"t2", "Walk dog", none, false, "u1", 1, 1⟩]
    ∧ (createTaskSuccess ⟨[sampleTask], false, none⟩
        ⟨"t2", "Walk dog", none, false, "u1", 1, 1⟩).isLoading = false
    ∧ (createTaskSuccess ⟨[sampleTask], false, none⟩
        ⟨"t2", "Walk dog", none, false, "u1", 1, 1⟩).tasks.filter
          (fun x => x.id == "t2") = [⟨"t2", "Walk dog", none, false, "u1", 1, 1⟩] :=
  C7_create_appends ⟨[sampleTask], false, none⟩
    ⟨"t2", "Walk dog", none, false, "u1", 1, 1⟩ (by decide)

/-- C8: when the id is present in the list, a successful `updateTask` or
`toggleTaskCompletion` replaces exactly the entry at the first matching
index with the repository-returned task, at the same position; the length
and every other entry are unchanged, and loading is cleared. -/
theorem C8_update_replaces_first_match (s : TaskState) (reqId : String) (t : Task)
    (i : Nat) (hfind : s.tasks.findIdx? (fun x => x.id == reqId) = some i) :
    ((∃ x, s.tasks[i]? = some x ∧ (x.id == reqId) = true)
      ∧ ∀ j, j < i → ∀ x, s.tasks[j]? = some x → (x.id == reqId) = false)
    ∧ ((updateTaskSuccess s reqId t).tasks.length = s.tasks.length
      ∧ (updateTaskSuccess s reqId t).tasks[i]? = some t
      ∧ (∀ j, j ≠ i → (updateTaskSuccess s reqId t).tasks[j]? = s.tasks[j]?)
      ∧ (updateTaskSuccess s reqId t).isLoading = false)
    ∧ ((toggleTaskCompletionSuccess s reqId t).tasks.length = s.tasks.length
      ∧ (toggleTaskCompletionSuccess s reqId t).tasks[i]? = some t
      ∧ (∀ j, j ≠ i → (toggleTaskCompletionSuccess s reqId t).tasks[j]? = s.tasks[j]?)
      ∧ (toggleTaskCompletionSuccess s reqId t).isLoading = false) := by
  obtain ⟨hi, hp, hfirst⟩ := List.findIdx?_eq_some_iff_getElem.mp hfind
  have hupd : updateTaskSuccess s reqId t
      = { tasks := s.tasks.set i t, isLoading := false, error := none } := by
    unfold updateTaskSuccess TaskState.setLoading TaskState.clearError
    simp [hfind]
  have htog : toggleTaskCompletionSuccess s reqId t
      = { tasks := s.tasks.set i t, isLoading := false, error := none } := by
    unfold toggleTaskCompletionSuccess TaskState.setLoading TaskState.clearError
    simp [hfind]
  refine ⟨⟨⟨s.tasks[i], by simp [List.getElem?_eq_getElem hi], hp⟩, ?_⟩, ?_, ?_⟩
  · intro j hj x hx
    have hji : j < s.tasks.length := lt_trans hj hi
    have hgx : s.tasks[j] = x := by
      have h0 := List.getElem?_eq_getElem hji
      rw [hx] at h0
      exact (Option.some.injEq _ _).mp h0.symm
    have hne := hfirst j hj
    rw [hgx] at hne
    exact Bool.eq_false_iff.mpr (fun hc => hne hc)
  · rw [hupd]
    refine ⟨by simp, by simp [List.getElem?_set_self hi], ?_, rfl⟩
    intro j hj
    simp [List.getElem?_set_ne (Ne.symm hj)]
  · rw [htog]
    refine ⟨by simp, by simp [List.getElem?_set_self hi], ?_, rfl⟩
    intro j hj
    simp [List.getElem?_set_ne (Ne.symm hj)]

/-- A second sample task (an updated version of `sampleTask`). -/
def sampleTaskDone : Task := ⟨"t1", "Buy milk", none, true, "u1", 0, 7⟩

/-- C8 (witness): replacing the only entry of a one-element list. -/
theorem C8_update_replaces_first_match_witness :
    (updateTaskSuccess ⟨[sampleTask], false, none⟩ "t1" sampleTaskDone).tasks.length
        = ([sampleTask] : List Task).length
    ∧ (updateTaskSuccess ⟨[sampleTask], false, none⟩ "t1" sampleTaskDone).tasks[0]?
        = some sampleTaskDone
    ∧ (toggleTaskCompletionSuccess ⟨[sampleTask], false, none⟩ "t1" sampleTaskDone).tasks[0]?
        = some sampleTaskDone :=
  let h := C8_update_replaces_first_match ⟨[sampleTask], false, none⟩ "t1"
    sampleTaskDone 0 (by decide)
  ⟨h.2.1.1, h.2.1.2.1, h.2.2.2.1⟩

/-- C1 (counterexample): with an empty task list (so no entry has id `t1`),
a previously-set error string and `isLoading = false`, a successful
`updateTask` for id `t1` does not leave the state unchanged: `isLoading`
becomes `true` and `error` becomes `null`. -/
theorem C1_counterexample :
    (∀ x ∈ (⟨[], false, some "Failed to load tasks"⟩ : TaskState).tasks,
        (x.id == "t1") = false)
    ∧ updateTaskSuccess ⟨[], false, some "Failed to load tasks"⟩ "t1" sampleTaskDone
        ≠ ⟨[], false, some "Failed to load tasks"⟩
    ∧ (updateTaskSuccess ⟨[], false, some "Failed to load tasks"⟩ "t1"
        sampleTaskDone).isLoading = true
    ∧ (updateTaskSuccess ⟨[], false, some "Failed to load tasks"⟩ "t1"
        sampleTaskDone).error = none := by
  refine ⟨by simp, by decide, by rfl, by rfl⟩

/-- C1 (amended): when no entry matches `request.id`, a successful
`updateTask` leaves the tasks list unchanged, but the loading/clear-error
phase that ran at call time persists: afterwards `isLoading` is `true` and
`error` is `null` (only the task list is a silent no-op). -/
theorem C1_update_noMatch (s : TaskState) (reqId : String) (t : Task)
    (habsent : ∀ x ∈ s.tasks, (x.id == reqId) = false) :
    (updateTaskSuccess s reqId t).tasks = s.tasks
    ∧ (updateTaskSuccess s reqId t).isLoading = true
    ∧ (updateTaskSuccess s reqId t).error = none := by
  have hfind : s.tasks.findIdx? (fun x => x.id == reqId) = none :=
    List.findIdx?_eq_none_iff.mpr habsent
  unfold updateTaskSuccess TaskState.setLoading TaskState.clearError
  simp [hfind]

/-- C1 (witness): the amended behaviour at the counterexample's input. -/
theorem C1_update_noMatch_witness :
    (updateTaskSuccess ⟨[], false, some "Failed to load tasks"⟩ "t1"
        sampleTaskDone).tasks = ([] : List Task)
    ∧ (updateTaskSuccess ⟨[], false, some "Failed to load tasks"⟩ "t1"
        sampleTaskDone).isLoading = true
    ∧ (updateTaskSuccess ⟨[], false, some "Failed to load tasks"⟩ "t1"
        sampleTaskDone).error = none :=
  C1_update_noMatch ⟨[], false, some "Failed to load tasks"⟩ "t1" sampleTaskDone
    (by simp)

/-- Invariant preservation for the loading interceptor: starting from a
state with a non-negative counter whose flag equals `counter > 0`, any
balanced event sequence preserves both properties. -/
lemma runLoading_inv (events : List HttpEvent) :
    ∀ s : LoadingState, balancedFrom s.activeRequests events = true →
      s.activeRequests ≥ 0 → s.loading = decide (s.activeRequests > 0) →
      (events.foldl loadingStep s).activeRequests ≥ 0
      ∧ (events.foldl loadingStep s).loading
          = decide ((events.foldl loadingStep s).activeRequests > 0) := by
  induction events with
  | nil => intro s _ hnn hl; exact ⟨hnn, hl⟩
  | cons e es ih =>
    intro s hbal hnn hl
    cases e with
    | start url =>
      by_cases hskip : shouldSkipLoading url = true
      · rw [List.foldl_cons]
        rw [show loadingStep s (.start url) = s by simp [loadingStep, hskip]]
        apply ih s _ hnn hl
        unfold balancedFrom at hbal
        simpa [hskip] using hbal
      · have hskip' : shouldSkipLoading url = false := by
          simpa using hskip
        rw [List.foldl_cons]
        rw [show loadingStep s (.start url)
            = ⟨s.activeRequests + 1, true⟩ by simp [loadingStep, hskip']]
        apply ih
        · unfold balancedFrom at hbal
          simpa [hskip'] using hbal
        · simp; omega
        · simp; omega
    | complete url =>
      by_cases hskip : shouldSkipLoading url = true
      · rw [List.foldl_cons]
        rw [show loadingStep s (.complete url) = s by simp [loadingStep, hskip]]
        apply ih s _ hnn hl
        unfold balancedFrom at hbal
        simpa [hskip] using hbal
      · have hskip' : shouldSkipLoading url = false := by
          simpa using hskip
        unfold balancedFrom at hbal
        simp [hskip'] at hbal
        obtain ⟨hpos, hbal'⟩ := hbal
        rw [List.foldl_cons]
        rw [show loadingStep s (.complete url)
            = ⟨s.activeRequests - 1,
               if s.activeRequests - 1 == 0 then false else s.loading⟩ by
          simp [loadingStep, hskip']]
        apply ih
        · simpa using hbal'
        · simp; omega
        · by_cases hz : s.activeRequests - 1 = 0
          · simp [hz]
          · have h1 : s.activeRequests - 1 > 0 := by omega
            have h2 : s.activeRequests > 0 := by omega
            simp only [hl]
            simp [hz, h1, h2]

/-- C3: (a) over any balanced request trace the shared flag equals
"some non-skipped request is in flight" and the counter stays non-negative —
so the flag turns true with the first of N concurrent requests and back to
false exactly when the last of them completes; (b) requests whose URL
matches the skip list change neither counter nor flag; (c) a dispatch
increments the counter and raises the flag; (d) a completion decrements the
counter unconditionally and lowers the flag exactly when the counter reaches
zero. -/
theorem C3_loading_counter (events : List HttpEvent)
    (hbal : balancedFrom 0 events = true) :
    ((runLoading events).activeRequests ≥ 0
      ∧ (runLoading events).loading = decide ((runLoading events).activeRequests > 0))
    ∧ (∀ (s : LoadingState) (url : String), shouldSkipLoading url = true →
        loadingStep s (.start url) = s ∧ loadingStep s (.complete url) = s)
    ∧ (∀ (s : LoadingState) (url : String), shouldSkipLoading url = false →
        (loadingStep s (.start url)).activeRequests = s.activeRequests + 1
        ∧ (loadingStep s (.start url)).loading = true)
    ∧ (∀ (s : LoadingState) (url : String), shouldSkipLoading url = false →
        (loadingStep s (.complete url)).activeRequests = s.activeRequests - 1
        ∧ (loadingStep s (.complete url)).loading
            = if s.activeRequests - 1 = 0 then false else s.loading) := by
  refine ⟨runLoading_inv events loadingInit hbal (by simp [loadingInit])
      (by simp [loadingInit]), ?_, ?_, ?_⟩
  · intro s url hskip
    constructor <;> simp [loadingStep, hskip]
  · intro s url hskip
    constructor <;> simp [loadingStep, hskip]
  · intro s url hskip
    refine ⟨by simp [loadingStep, hskip], ?_⟩
    by_cases hz : s.activeRequests - 1 = 0 <;> simp [loadingStep, hskip, hz]

/-- C3 (witness): a concrete trace of two overlapping non-skipped requests
plus skipped health checks — the flag invariant holds at the end, and the
step facts hold at concrete states and URLs. -/
theorem C3_loading_counter_witness :
    ((runLoading [.start "http://api/tasks", .start "http://api/auth/me",
        .complete "http://api/tasks", .complete "http://api/auth/me"]).activeRequests ≥ 0
      ∧ (runLoading [.start "http://api/tasks", .start "http://api/auth/me",
          .complete "http://api/tasks", .complete "http://api/auth/me"]).loading
        = decide ((runLoading [.start "http://api/tasks", .start "http://api/auth/me",
            .complete "http://api/tasks", .complete "http://api/auth/me"]).activeRequests > 0))
    ∧ loadingStep ⟨2, true⟩ (.start "http://api/health") = ⟨2, true⟩
    ∧ (loadingStep ⟨1, true⟩ (.complete "http://api/tasks")).loading = false :=
  let h := C3_loading_counter [.start "http://api/tasks", .start "http://api/auth/me",
    .complete "http://api/tasks", .complete "http://api/auth/me"] (by decide)
  ⟨h.1,
   (h.2.1 ⟨2, true⟩ "http://api/health" (by decide)).1,
   by rw [(h.2.2.2 ⟨1, true⟩ "http://api/tasks" (by decide)).2]; rfl⟩

/-- C4: on any non-auth-endpoint request that fails with status 401, the
auth interceptor performs `logout` — clearing the persisted token and user
and resetting the auth state to `user = null`, `isAuthenticated = false` —
and re-raises the original error; any other status leaves the client state
untouched while still re-raising the error. -/
theorem C4_auth401_logout {α : Type} (req : HttpRequest) (s : AuthClientState)
    (e : HttpErrorResponse) (hna : isAuthEndpoint req.url = false) :
    (e.status = 401 →
      authInterceptorResult req s (.error e : Except HttpErrorResponse α)
          = (.error e, logout s)
      ∧ (logout s).storedToken = none
      ∧ (logout s).storedUser = none
      ∧ (logout s).authState.user = none
      ∧ (logout s).authState.isAuthenticated = false)
    ∧ (e.status ≠ 401 →
      authInterceptorResult req s (.error e : Except HttpErrorResponse α)
          = (.error e, s)) := by
  constructor
  · intro h401
    refine ⟨?_, rfl, rfl, rfl, rfl⟩
    simp [authInterceptorResult, hna, h401]
  · intro hother
    simp [authInterceptorResult, hna, hother]

/-- C4 (witness): a 401 on `/tasks` logs the client out; a 500 does not. -/
theorem C4_auth401_logout_witness :
    (authInterceptorResult (α := Unit) ⟨"http://api/tasks", none⟩
        ⟨some "tok1", some ⟨"u1", "user@x.com", "c", "u"⟩,
          ⟨some ⟨"u1", "user@x.com", "c", "u"⟩, true, false, none⟩, none⟩
        (.error ⟨401, .server none⟩)
      = (.error ⟨401, .server none⟩,
         logout ⟨some "tok1", some ⟨"u1", "user@x.com", "c", "u"⟩,
          ⟨some ⟨"u1", "user@x.com", "c", "u"⟩, true, false, none⟩, none⟩))
    ∧ (authInterceptorResult (α := Unit) ⟨"http://api/tasks", none⟩
        ⟨some "tok1", some ⟨"u1", "user@x.com", "c", "u"⟩,
          ⟨some ⟨"u1", "user@x.com", "c", "u"⟩, true, false, none⟩, none⟩
        (.error ⟨500, .server none⟩)
      = (.error ⟨500, .server none⟩,
         ⟨some "tok1", some ⟨"u1", "user@x.com", "c", "u"⟩,
          ⟨some ⟨"u1", "user@x.com", "c", "u"⟩, true, false, none⟩, none⟩)) :=
  ⟨((C4_auth401_logout ⟨"http://api/tasks", none⟩ _ ⟨401, .server none⟩
      (by decide)).1 rfl).1,
   (C4_auth401_logout ⟨"http://api/tasks", none⟩ _ ⟨500, .server none⟩
      (by decide)).2 (by decide)⟩

/-- C2 (counterexample): toggling the sample task through the repository
does not issue a single body-less PATCH to `/tasks/t1/toggle`; it issues a
GET of `/tasks/t1` followed by a PATCH of `/tasks/t1` carrying the toggled
fields in the body. -/
theorem C2_counterexample :
    toggleCompletionRequests "http://api" "t1" sampleTask
        ≠ .ok [⟨Method.patch, "http://api/tasks/t1/toggle", none⟩]
    ∧ toggleCompletionRequests "http://api" "t1" sampleTask
        = .ok [⟨Method.get, "http://api/tasks/t1", none⟩,
               ⟨Method.patch, "http://api/tasks/t1",
                some ⟨"Buy milk", none, true⟩⟩] := by
  refine ⟨?_, by rfl⟩
  rw [show toggleCompletionRequests "http://api" "t1" sampleTask
      = .ok [⟨Method.get, "http://api/tasks/t1", none⟩,
             ⟨Method.patch, "http://api/tasks/t1",
              some ⟨"Buy milk", none, true⟩⟩] from rfl]
  simp

/-- C2 (amended): `toggleCompletion(id)` is implemented as a GET of
`/tasks/:id` followed by a PATCH of `/tasks/:id` whose body carries the
fetched task's fields with `completed` negated (the code's documented
workaround for the missing `/tasks/:id/toggle` backend endpoint); on success
the state container replaces the matching task with the server-returned
version at its position. -/
theorem C2_toggle_via_get_patch (apiUrl taskId : String) (fetched : Task)
    (hv : fetched.validate = none) :
    toggleCompletionRequests apiUrl taskId fetched
      = .ok [⟨Method.get, apiUrl ++ "/tasks/" ++ taskId, none⟩,
             ⟨Method.patch, apiUrl ++ "/tasks/" ++ fetched.id,
              some ⟨fetched.title, fetched.description, !fetched.completed⟩⟩]
    ∧ (∀ (s : TaskState) (i : Nat) (t : Task),
        s.tasks.findIdx? (fun x => x.id == taskId) = some i →
          (toggleTaskCompletionSuccess s taskId t).tasks = s.tasks.set i t
          ∧ (toggleTaskCompletionSuccess s taskId t).isLoading = false) := by
  constructor
  · have hval : UpdateTaskRequest.validate
        ⟨fetched.id, fetched.title, fetched.description, !fetched.completed,
          fetched.userId⟩ = none := by
      obtain ⟨h1, h2, h3, h4, h5⟩ := (task_validate_none_iff fetched).mp hv
      exact (updateReq_validate_none_iff _).mpr ⟨h1, h2, h3, h4, h5⟩
    unfold toggleCompletionRequests mkUpdateTaskRequest
    simp [hval]
  · intro s i t hfind
    unfold toggleTaskCompletionSuccess TaskState.setLoading TaskState.clearError
    simp [hfind]

/-- C2 (witness): the amended trace at the sample task, and the
state-container replacement at a singleton list. -/
theorem C2_toggle_via_get_patch_witness :
    toggleCompletionRequests "http://api" "t1" sampleTask
      = .ok [⟨Method.get, "http://api/tasks/t1", none⟩,
             ⟨Method.patch, "http://api/tasks/t1",
              some ⟨"Buy milk", none, true⟩⟩]
    ∧ (toggleTaskCompletionSuccess ⟨[sampleTask], false, none⟩ "t1"
        sampleTaskDone).tasks = [sampleTask].set 0 sampleTaskDone :=
  let h := C2_toggle_via_get_patch "http://api" "t1" sampleTask (by rfl)
  ⟨h.1, (h.2 ⟨[sampleTask], false, none⟩ 0 sampleTaskDone (by decide)).1⟩

/-- C5 (counterexample): a failed request whose `error.error` is a
client-side `ErrorEvent` with status 404 is not notified according to the
status mapping (which would demand warn / `'Resource not found'`); it gets
severity error with a `'Client Error: …'` message instead. -/
theorem C5_counterexample :
    errorInterceptorOnError ⟨404, .clientEvent "Network failure"⟩
        ≠ ([⟨Severity.warn, "Warning", "Resource not found", 5000⟩],
           ⟨404, .clientEvent "Network failure"⟩)
    ∧ errorInterceptorOnError ⟨404, .clientEvent "Network failure"⟩
        = ([⟨Severity.error, "Error", "Client Error: Network failure", 5000⟩],
           ⟨404, .clientEvent "Network failure"⟩) :=
  ⟨by decide, by rfl⟩

/-- C5 (amended): every failed request produces exactly one notification and
re-raises the original error object unchanged; for server-side error bodies
the severity and message follow the canonical status mapping (400 warn with
server message or `'Bad Request'`; 401/403/429/500 error with their fixed
messages; 404 warn `'Resource not found'`; 409/422 warn preferring the
server message; 502/503/504 error `'Service temporarily unavailable…'`; any
other status error with server message or `'Server Error: <status>'`), while
a client-side `ErrorEvent` body instead yields severity error with message
`'Client Error: <msg>'` regardless of status. -/
theorem C5_error_mapping (e : HttpErrorResponse) :
    ((errorInterceptorOnError e).1.length = 1 ∧ (errorInterceptorOnError e).2 = e)
    ∧ (∀ msg, e.body = .server msg →
        (e.status = 400 →
          (errorInterceptorOnError e).1
            = [⟨Severity.warn, "Warning", jsOrElse msg "Bad Request", 5000⟩])
        ∧ (e.status = 401 →
          (errorInterceptorOnError e).1
            = [⟨Severity.error, "Error", "Unauthorized. Please log in again.", 5000⟩])
        ∧ (e.status = 403 →
          (errorInterceptorOnError e).1
            = [⟨Severity.error, "Error",
                "Forbidden. You do not have permission to perform this action.", 5000⟩])
        ∧ (e.status = 404 →
          (errorInterceptorOnError e).1
            = [⟨Severity.warn, "Warning", "Resource not found", 5000⟩])
        ∧ (e.status = 409 ∨ e.status = 422 →
          ((errorInterceptorOnError e).1.map ToastMessage.severity = [Severity.warn]
            ∧ ∀ m, msg = some m → m.data ≠ [] →
                (errorInterceptorOnError e).1.map ToastMessage.detail = [m]))
        ∧ (e.status = 429 →
          (errorInterceptorOnError e).1
            = [⟨Severity.error, "Error",
                "Too many requests. Please try again later.", 5000⟩])
        ∧ (e.status = 500 →
          (errorInterceptorOnError e).1
            = [⟨Severity.error, "Error",
                "Internal server error. Please try again later.", 5000⟩])
        ∧ (e.status = 502 ∨ e.status = 503 ∨ e.status = 504 →
          (errorInterceptorOnError e).1
            = [⟨Severity.error, "Error",
                "Service temporarily unavailable. Please try again later.", 5000⟩])
        ∧ (e.status ∉ ([400, 401, 403, 404, 409, 422, 429, 500, 502, 503, 504] : List Nat) →
          (errorInterceptorOnError e).1
            = [⟨Severity.error, "Error",
                jsOrElse msg ("Server Error: " ++ toString e.status), 5000⟩]))
    ∧ (∀ m, e.body = .clientEvent m →
        (errorInterceptorOnError e).1
          = [⟨Severity.error, "Error", "Client Error: " ++ m, 5000⟩]) := by
  refine ⟨⟨rfl, rfl⟩, ?_, ?_⟩
  · intro msg hbody
    refine ⟨?_, ?_, ?_, ?_, ?_, ?_, ?_, ?_, ?_⟩
    · intro h
      simp [errorInterceptorOnError, handleError, getErrorSummary, hbody, h]
    · intro h
      simp [errorInterceptorOnError, handleError, getErrorSummary, hbody, h]
    · intro h
      simp [errorInterceptorOnError, handleError, getErrorSummary, hbody, h]
    · intro h
      simp [errorInterceptorOnError, handleError, getErrorSummary, hbody, h]
    · intro h
      rcases h with h | h <;>
        refine ⟨by simp [errorInterceptorOnError, handleError, getErrorSummary,
            hbody, h], ?_⟩ <;>
        · intro m hm hne
          simp [errorInterceptorOnError, handleError, getErrorSummary, hbody, h,
            hm, jsOrElse, hne]
    · intro h
      simp [errorInterceptorOnError, handleError, getErrorSummary, hbody, h]
    · intro h
      simp [errorInterceptorOnError, handleError, getErrorSummary, hbody, h]
    · intro h
      rcases h with h | h | h <;>
        simp [errorInterceptorOnError, handleError, getErrorSummary, hbody, h]
    · intro h
      simp only [List.mem_cons, List.not_mem_nil, or_false, not_or] at h
      obtain ⟨n400, n401, n403, n404, n409, n422, n429, n500, n502, n503, n504⟩ := h
      simp [errorInterceptorOnError, handleError, getErrorSummary, hbody,
        n400, n401, n403, n404, n409, n422, n429, n500, n502, n503, n504]
  · intro m hbody
    simp [errorInterceptorOnError, handleError, getErrorSummary, hbody]

/-- C5 (witness): concrete failures — a 404 with a server body gets one warn
toast, a 409 with a server message surfaces that message, an unlisted status
falls back to the generic message, and the original errors are re-raised. -/
theorem C5_error_mapping_witness :
    ((errorInterceptorOnError ⟨404, .server none⟩).1.length = 1
      ∧ (errorInterceptorOnError ⟨404, .server none⟩).2 = ⟨404, .server none⟩)
    ∧ (errorInterceptorOnError ⟨404, .server none⟩).1
        = [⟨Severity.warn, "Warning", "Resource not found", 5000⟩]
    ∧ (errorInterceptorOnError ⟨409, .server (some "Duplicate")⟩).1.map
        ToastMessage.detail = ["Duplicate"]
    ∧ (errorInterceptorOnError ⟨418, .server none⟩).1
        = [⟨Severity.error, "Error", "Server Error: 418", 5000⟩] :=
  ⟨(C5_error_mapping ⟨404, .server none⟩).1,
   ((C5_error_mapping ⟨404, .server none⟩).2.1 none rfl).2.2.2.1 rfl,
   (((C5_error_mapping ⟨409, .server (some "Duplicate")⟩).2.1 (some "Duplicate")
      rfl).2.2.2.2.1 (Or.inl rfl)).2 "Duplicate" rfl (by decide),
   by
    have := ((C5_error_mapping ⟨418, .server none⟩).2.1 none rfl).2.2.2.2.2.2.2.2
      (by decide)
    simpa [jsOrElse] using this⟩

end AtomChat
